import Mathlib

/-!
Shallow embedding of `src/livekit_pipeline/src/pipeline.py`
(HeirloomStoriesAgents): environment validation, job-metadata
normalization, backend URL resolution, welcome-message gating, and the
transcript relay. Python strings are modelled as Lean `String`,
`os.environ` as `String → Option String`, values that may be `None` as
`Option`, and raising code as `Except`.
-/

/-- Log entries emitted through `logging` (`info`/`warning`/`error`) or
plain stdout writes in the pipeline script. -/
inductive LogEntry where
  | info : String → LogEntry
  | warning : String → LogEntry
  | error : String → LogEntry
  | print : String → LogEntry
deriving DecidableEq, Repr

/-- `s.startswith(p)` from Python, over the underlying character lists. -/
def startswith (s p : String) : Bool :=
  p.data.isPrefixOf s.data

/-- Python truthiness test `not os.environ.get(key)`: true when the
variable is unset or set to the empty string. -/
def pyFalsyEnv : Option String → Bool
  | none => true
  | some s => s == ""

/-- The `required_envs` dict of `validate_envs` (insertion order kept). -/
def required_envs : List (String × String) :=
  [("LIVEKIT_URL", "LiveKit server URL"),
   ("LIVEKIT_API_KEY", "API Key for LiveKit"),
   ("LIVEKIT_API_SECRET", "API Secret for LiveKit"),
   ("DEEPGRAM_API_KEY", "API key for Deepgram (used for STT)"),
   ("ELEVEN_API_KEY", "API key for ElevenLabs (used for TTS)")]

/-- The warning `logger.warning("Environment variable %s (%s) is not set.", key, description)`. -/
def envMissingWarning (key descr : String) : LogEntry :=
  LogEntry.warning ("Environment variable " ++ key ++ " (" ++ descr ++ ") is not set.")

/-- `validate_envs`: loop over `required_envs`, warn for each variable
whose value is falsy; never raises (total, returns its log). -/
def validate_envs (env : String → Option String) : List LogEntry :=
  required_envs.foldl
    (fun logs kv =>
      if pyFalsyEnv (env kv.1) then logs ++ [envMissingWarning kv.1 kv.2] else logs)
    []

/-- The backend-base derivation from `RESTACK_ENGINE_API_ADDRESS`
(lines 75-81): absent or empty gives the local default, a value lacking
the `https://` prefix gets it prepended, otherwise passed through. -/
def resolveBase : Option String → String
  | none => "http://localhost:9233"
  | some engine_api_address =>
    if engine_api_address = "" then "http://localhost:9233"
    else if startswith engine_api_address "https://" = false then
      "https://" ++ engine_api_address
    else engine_api_address

/-- Python `str()` applied to an optional string identifier: `None`
renders as the literal text `"None"` inside the f-string. -/
def pyStr : Option String → String
  | none => "None"
  | some s => s

/-- `agent_url = f"{agent_backend_host}/stream/agents/{agent_name}/{agent_id}/{run_id}"`. -/
def agent_url (engine_api_address agent_name agent_id run_id : Option String) : String :=
  resolveBase engine_api_address ++ "/stream/agents/" ++ pyStr agent_name ++ "/"
    ++ pyStr agent_id ++ "/" ++ pyStr run_id

/-- Guard of `on_participant_connected` (lines 97-105): a welcome task is
created unless the identity starts with `"agent-"` or is
`"transcript-listener"`. -/
def on_participant_connected_schedules (identity : String) : Bool :=
  !(startswith identity "agent-" || identity == "transcript-listener")

/-- Guard of the first-participant check after `session.start`
(line 153): the welcome is sent unless the identity starts with `"agent-"`. -/
def first_participant_sends_welcome (identity : String) : Bool :=
  !(startswith identity "agent-")

/-- `send_welcome_message` (lines 115-125): the `session.say` call is
modelled by its outcome; the `try`/`except Exception` wrapper logs the
error and falls through, so the function always returns `Except.ok`. -/
def send_welcome_message (sayOutcome : Except String Unit) : Except String (List LogEntry) :=
  match sayOutcome with
  | Except.ok _ => Except.ok [LogEntry.info "Sending welcome message"]
  | Except.error e =>
    Except.ok [LogEntry.info "Sending welcome message",
               LogEntry.error ("Error sending welcome message: " ++ e)]

/-- JSON values as produced by `json.loads`. Objects keep insertion
order like a Python dict; number literals are kept as their source
lexeme, since no property of the script depends on their numeric value. -/
inductive Json where
  | null : Json
  | bool : Bool → Json
  | num : String → Json
  | str : String → Json
  | arr : List Json → Json
  | obj : List (String × Json) → Json
deriving Repr

/-- JSON insignificant whitespace (space, tab, newline, carriage return). -/
def isJsonWs (c : Char) : Bool :=
  c = ' ' || c = '\t' || c = '\n' || c = '\r'

/-- Drop leading JSON whitespace. -/
def skipWs : List Char → List Char
  | [] => []
  | c :: cs => if isJsonWs c then skipWs cs else c :: cs

/-- Value of one hex digit, as in `\uXXXX` escapes. -/
def hexVal (c : Char) : Option Nat :=
  if '0' ≤ c ∧ c ≤ '9' then some (c.toNat - '0'.toNat)
  else if 'a' ≤ c ∧ c ≤ 'f' then some (c.toNat - 'a'.toNat + 10)
  else if 'A' ≤ c ∧ c ≤ 'F' then some (c.toNat - 'A'.toNat + 10)
  else none

/-- Body of a JSON string literal, after the opening quote: handles the
standard escapes and `\uXXXX`, rejects unescaped control characters
(strict mode), stops at the closing quote. -/
def parseStringBody : List Char → List Char → Option (String × List Char)
  | [], _ => none
  | c :: cs, acc =>
    if c = '"' then some (String.mk acc.reverse, cs)
    else if c = '\\' then
      match cs with
      | [] => none
      | e :: cs2 =>
        if e = '"' then parseStringBody cs2 ('"' :: acc)
        else if e = '\\' then parseStringBody cs2 ('\\' :: acc)
        else if e = '/' then parseStringBody cs2 ('/' :: acc)
        else if e = 'b' then parseStringBody cs2 ('\x08' :: acc)
        else if e = 'f' then parseStringBody cs2 ('\x0c' :: acc)
        else if e = 'n' then parseStringBody cs2 ('\n' :: acc)
        else if e = 'r' then parseStringBody cs2 ('\x0d' :: acc)
        else if e = 't' then parseStringBody cs2 ('\t' :: acc)
        else if e = 'u' then
          match cs2 with
          | h1 :: h2 :: h3 :: h4 :: cs3 =>
            match hexVal h1, hexVal h2, hexVal h3, hexVal h4 with
            | some a, some b, some c2, some d =>
              parseStringBody cs3 (Char.ofNat (a * 4096 + b * 256 + c2 * 16 + d) :: acc)
            | _, _, _, _ => none
          | _ => none
        else none
    else if c.toNat < 32 then none
    else parseStringBody cs (c :: acc)

/-- Lex a JSON number (`-? int frac? exp?`), returning its lexeme. -/
def parseNumberLex (cs : List Char) : Option (String × List Char) :=
  let sgnSplit : List Char × List Char :=
    match cs with
    | c :: rest => if c = '-' then ([c], rest) else ([], cs)
    | [] => ([], cs)
  let ipartRes : Option (List Char × List Char) :=
    match sgnSplit.2 with
    | '0' :: rest => some (['0'], rest)
    | c :: rest =>
      if '1' ≤ c ∧ c ≤ '9' then
        match rest.span Char.isDigit with
        | (ds, rest2) => some (c :: ds, rest2)
      else none
    | [] => none
  match ipartRes with
  | none => none
  | some (ipart, rest) =>
    let fracRes : Option (List Char × List Char) :=
      match rest with
      | '.' :: r =>
        match r.span Char.isDigit with
        | ([], _) => none
        | (fd, r2) => some ('.' :: fd, r2)
      | _ => some ([], rest)
    match fracRes with
    | none => none
    | some (fpart, rest2) =>
      let expRes : Option (List Char × List Char) :=
        match rest2 with
        | e :: r =>
          if e = 'e' ∨ e = 'E' then
            let sr : List Char × List Char :=
              match r with
              | s :: r2 => if s = '+' ∨ s = '-' then ([s], r2) else ([], r)
              | [] => ([], r)
            match sr.2.span Char.isDigit with
            | ([], _) => none
            | (ed, r3) => some (e :: (sr.1 ++ ed), r3)
          else some ([], rest2)
        | [] => some ([], rest2)
      match expRes with
      | none => none
      | some (epart, rest3) =>
        some (String.mk (sgnSplit.1 ++ ipart ++ fpart ++ epart), rest3)

/-- Python-dict insertion: a repeated key keeps its first position and
takes the last value, as `json.loads` does for duplicate members. -/
def pyDictInsert (k : String) (v : Json) : List (String × Json) → List (String × Json)
  | [] => [(k, v)]
  | (k2, v2) :: rest =>
    if k2 = k then (k2, v) :: rest else (k2, v2) :: pyDictInsert k v rest

/-- Comma-separated array elements after the opening bracket (at least
one element), with `pv` parsing each value; fuel bounds the element count. -/
def parseElems (pv : List Char → Option (Json × List Char)) :
    Nat → List Char → List Json → Option (List Json × List Char)
  | 0, _, _ => none
  | fuel + 1, cs, acc =>
    match pv (skipWs cs) with
    | none => none
    | some (v, rest) =>
      match skipWs rest with
      | ',' :: rest2 => parseElems pv fuel rest2 (v :: acc)
      | ']' :: rest2 => some ((v :: acc).reverse, rest2)
      | _ => none

/-- Comma-separated object members after the opening brace (at least one
member), with `pv` parsing each value; fuel bounds the member count. -/
def parseMembers (pv : List Char → Option (Json × List Char)) :
    Nat → List Char → List (String × Json) → Option (List (String × Json) × List Char)
  | 0, _, _ => none
  | fuel + 1, cs, acc =>
    match skipWs cs with
    | '"' :: cs2 =>
      match parseStringBody cs2 [] with
      | none => none
      | some (k, rest) =>
        match skipWs rest with
        | ':' :: rest2 =>
          match pv (skipWs rest2) with
          | none => none
          | some (v, rest3) =>
            match skipWs rest3 with
            | ',' :: rest4 => parseMembers pv fuel rest4 (pyDictInsert k v acc)
            | '\x7d' :: rest4 => some (pyDictInsert k v acc, rest4)
            | _ => none
        | _ => none
    | _ => none

/-- One JSON value, by recursive descent with structural fuel. -/
def parseValue : Nat → List Char → Option (Json × List Char)
  | 0, _ => none
  | fuel + 1, cs =>
    match skipWs cs with
    | [] => none
    | c :: rest =>
      if c = '\x7b' then
        match skipWs rest with
        | '\x7d' :: rest2 => some (Json.obj [], rest2)
        | cs2 =>
          match parseMembers (parseValue fuel) fuel cs2 [] with
          | some (ms, rest2) => some (Json.obj ms, rest2)
          | none => none
      else if c = '[' then
        match skipWs rest with
        | ']' :: rest2 => some (Json.arr [], rest2)
        | cs2 =>
          match parseElems (parseValue fuel) fuel cs2 [] with
          | some (es, rest2) => some (Json.arr es, rest2)
          | none => none
      else if c = '"' then
        match parseStringBody rest [] with
        | some (s, rest2) => some (Json.str s, rest2)
        | none => none
      else
        match c :: rest with
        | 'n' :: 'u' :: 'l' :: 'l' :: r => some (Json.null, r)
        | 't' :: 'r' :: 'u' :: 'e' :: r => some (Json.bool true, r)
        | 'f' :: 'a' :: 'l' :: 's' :: 'e' :: r => some (Json.bool false, r)
        | cs2 =>
          match parseNumberLex cs2 with
          | some (lex, r) => some (Json.num lex, r)
          | none => none

/-- `json.loads`: parse one value and require only trailing whitespace;
`none` models a raised `json.JSONDecodeError`. -/
def json_loads (s : String) : Option Json :=
  match parseValue (s.length + 1) s.data with
  | none => none
  | some (v, rest) => if skipWs rest = [] then some v else none

/-- `metadata.replace("'", '"')`: both arguments are single characters,
so the substring replacement is a character map. -/
def pyReplace (s : String) (a b : Char) : String :=
  String.mk (s.data.map (fun c => if c = a then b else c))

/-- Metadata normalization for string metadata (lines 53-64): strict
parse, then parse with every single quote turned into a double quote,
then a logged warning and the empty dict. Total: never raises. -/
def normalize_metadata (metadata : String) : Json × List LogEntry :=
  match json_loads metadata with
  | some v => (v, [])
  | none =>
    match json_loads (pyReplace metadata '\x27' '"') with
    | some v => (v, [])
    | none => (Json.obj [], [LogEntry.warning "Normalization failed, using default values"])

/-- The single outbound POST issued by `send_transcript_to_app`: target
URL, the two JSON body fields, and the request timeout. -/
structure PostRequest where
  url : String
  speaker : String
  text : String
  timeout : Nat
deriving DecidableEq, Repr

/-- Response as observed by the script (`response.status_code`, `response.text`). -/
structure HttpResponse where
  status_code : Nat
  text : String
deriving DecidableEq, Repr

/-- `f"{app_url}/api/transcript"` with the `FASTHTML_APP_URL` default. -/
def transcriptUrl (fasthtml_app_url : Option String) : String :=
  (fasthtml_app_url.getD "http://localhost:5001") ++ "/api/transcript"

/-- `send_transcript_to_app` (lines 157-181): the HTTP client is modelled
by the outcome of the single POST it performs; the surrounding
`try`/`except Exception` prints and swallows every failure, so the result
is always `Except.ok` together with the request issued and the lines
printed. -/
def send_transcript_to_app (fasthtml_app_url : Option String) (speaker text : String)
    (post : PostRequest → Except String HttpResponse) :
    Except String (List PostRequest × List LogEntry) :=
  match post ⟨transcriptUrl fasthtml_app_url, speaker, text, 10⟩ with
  | Except.ok resp =>
    Except.ok ([⟨transcriptUrl fasthtml_app_url, speaker, text, 10⟩],
      [LogEntry.print ("[PIPELINE] Sending transcript to " ++ transcriptUrl fasthtml_app_url),
       LogEntry.print ("[PIPELINE] Speaker: " ++ speaker ++ ", Text: " ++ text),
       LogEntry.print ("[PIPELINE] Response status: " ++ toString resp.status_code),
       LogEntry.print ("[PIPELINE] Response body: " ++ resp.text)])
  | Except.error e =>
    Except.ok ([⟨transcriptUrl fasthtml_app_url, speaker, text, 10⟩],
      [LogEntry.print ("[PIPELINE] Sending transcript to " ++ transcriptUrl fasthtml_app_url),
       LogEntry.print ("[PIPELINE] Speaker: " ++ speaker ++ ", Text: " ++ text),
       LogEntry.print ("[PIPELINE] Error sending transcript to app: " ++ e)])

/-! ## Theorems -/

/-- Helper: a string starting with `"http://"` does not start with
`"https://"` (they differ at the fifth character). -/
theorem startswith_http_not_https (s : String) (h : startswith s "http://" = true) :
    startswith s "https://" = false := by
  unfold startswith at h ⊢
  have hd : ("http://".data) = ['h', 't', 't', 'p', ':', '/', '/'] := rfl
  have hd2 : ("https://".data) = ['h', 't', 't', 'p', 's', ':', '/', '/'] := rfl
  rw [hd] at h
  rw [hd2]
  rcases hl : s.data with _ | ⟨a, _ | ⟨b, _ | ⟨c, _ | ⟨d, _ | ⟨e, t⟩⟩⟩⟩⟩ <;>
    rw [hl] at h <;> simp_all [List.isPrefixOf]
  obtain ⟨-, -, -, -, he, -⟩ := h
  intro _ _ _ _ he2
  rw [← he2] at he
  exact absurd he (by decide)

/-- C1: metadata normalization never raises — it is a total function —
and when both the strict parse and the quote-repaired parse fail it logs
a warning and returns the empty mapping. -/
theorem normalize_metadata_default (s : String)
    (h1 : json_loads s = none)
    (h2 : json_loads (pyReplace s '\x27' '"') = none) :
    normalize_metadata s =
      (Json.obj [], [LogEntry.warning "Normalization failed, using default values"]) := by
  unfold normalize_metadata
  rw [h1, h2]

/-- C1 witness: both parses fail on `"not json at all"` and normalization
returns the empty mapping with a logged warning. -/
theorem normalize_metadata_default_witness :
    json_loads "not json at all" = none ∧
    json_loads (pyReplace "not json at all" '\x27' '"') = none ∧
    normalize_metadata "not json at all" =
      (Json.obj [], [LogEntry.warning "Normalization failed, using default values"]) :=
  ⟨rfl, rfl, normalize_metadata_default "not json at all" rfl rfl⟩

/-- C2: when the strict JSON parse of a string succeeds as an object, the
normalizer returns that parse result unchanged (and logs nothing). -/
theorem normalize_metadata_strict (s : String) (kvs : List (String × Json))
    (h : json_loads s = some (Json.obj kvs)) :
    normalize_metadata s = (Json.obj kvs, []) := by
  unfold normalize_metadata
  rw [h]

/-- C2 witness: a concrete valid JSON object string parses strictly and
is returned unchanged. -/
theorem normalize_metadata_strict_witness :
    json_loads "\x7b\"agent_name\": \"x\"\x7d" = some (Json.obj [("agent_name", Json.str "x")]) ∧
    normalize_metadata "\x7b\"agent_name\": \"x\"\x7d" =
      (Json.obj [("agent_name", Json.str "x")], []) :=
  ⟨rfl, normalize_metadata_strict "\x7b\"agent_name\": \"x\"\x7d" [("agent_name", Json.str "x")] rfl⟩

/-- C3: when the strict parse fails, the normalizer retries on the input
with every single quote replaced by a double quote, returning that
parse's result when it succeeds and the empty mapping otherwise. -/
theorem normalize_metadata_retry (s : String) (h : json_loads s = none) :
    normalize_metadata s =
      (match json_loads (pyReplace s '\x27' '"') with
       | some v => (v, [])
       | none =>
         (Json.obj [], [LogEntry.warning "Normalization failed, using default values"])) := by
  unfold normalize_metadata
  rw [h]

/-- C3 witness: the single-quoted object from the spec fails the strict
parse, and normalization returns the repaired mapping
`\x7b"agent_name": "x", "agent_id": "y", "run_id": "z"\x7d`. -/
theorem normalize_metadata_retry_witness :
    json_loads "\x7b\x27agent_name\x27: \x27x\x27, \x27agent_id\x27: \x27y\x27, \x27run_id\x27: \x27z\x27\x7d" = none ∧
    normalize_metadata "\x7b\x27agent_name\x27: \x27x\x27, \x27agent_id\x27: \x27y\x27, \x27run_id\x27: \x27z\x27\x7d" =
      (Json.obj [("agent_name", Json.str "x"), ("agent_id", Json.str "y"),
        ("run_id", Json.str "z")], []) :=
  ⟨rfl,
   (normalize_metadata_retry
      "\x7b\x27agent_name\x27: \x27x\x27, \x27agent_id\x27: \x27y\x27, \x27run_id\x27: \x27z\x27\x7d" rfl).trans rfl⟩

/-- C4: for a non-empty override, the base is the override unchanged when
it starts with `"https://"`, and `"https://"` prepended otherwise. -/
theorem resolveBase_override (ov : String) (h : ov ≠ "") :
    resolveBase (some ov) =
      if startswith ov "https://" = true then ov else "https://" ++ ov := by
  rcases hs : startswith ov "https://" <;> simp [resolveBase, h, hs]

/-- C4 witness: `"api.example.com"` gains the scheme and
`"https://api.example.com"` passes through unchanged. -/
theorem resolveBase_override_witness :
    "api.example.com" ≠ "" ∧
    resolveBase (some "api.example.com") = "https://api.example.com" ∧
    resolveBase (some "https://api.example.com") = "https://api.example.com" := by
  refine ⟨by decide, ?_, ?_⟩
  · rw [resolveBase_override "api.example.com" (by decide)]
    rfl
  · rw [resolveBase_override "https://api.example.com" (by decide)]
    rfl

/-- C5: the endpoint is always the base followed by
`"/stream/agents/"` and the three identifiers in order, `None`
rendering as the literal text `"None"`; with the override absent or
empty the base is `"http://localhost:9233"`. -/
theorem agent_url_spec :
    (∀ env a b c, agent_url env a b c =
      resolveBase env ++ "/stream/agents/" ++ pyStr a ++ "/" ++ pyStr b ++ "/" ++ pyStr c) ∧
    (∀ env, env = none ∨ env = some "" → ∀ a b c,
      agent_url env a b c =
        "http://localhost:9233" ++ "/stream/agents/" ++ pyStr a ++ "/" ++ pyStr b ++ "/"
          ++ pyStr c) := by
  constructor
  · intro env a b c
    rfl
  · rintro env (rfl | rfl) a b c <;> rfl

/-- C5 witness: with no override, identifiers `a`, `b` and a `None`
run id give `"http://localhost:9233/stream/agents/a/b/None"`. -/
theorem agent_url_spec_witness :
    agent_url none (some "a") (some "b") none =
      "http://localhost:9233/stream/agents/a/b/None" :=
  (agent_url_spec.2 none (Or.inl rfl) (some "a") (some "b") none).trans rfl

/-- C6 counterexample: the first-participant check only filters the
`"agent-"` prefix, so a first participant with identity
`"transcript-listener"` does trigger the welcome, contradicting the
claim that it never triggers one on either path. -/
theorem first_participant_welcomes_transcript_listener :
    first_participant_sends_welcome "transcript-listener" = true := rfl

/-- C6 amended: the participant-connected listener schedules a welcome
task exactly for identities that neither start with `"agent-"` nor equal
`"transcript-listener"`; the first-participant check sends the welcome
exactly for identities that do not start with `"agent-"` (so
`"transcript-listener"` is welcomed there); `"agent-42"` triggers
neither path and `"user-1"` triggers both. -/
theorem welcome_gating_amended :
    (∀ identity : String, on_participant_connected_schedules identity = true ↔
      ¬(startswith identity "agent-" = true ∨ identity = "transcript-listener")) ∧
    (∀ identity : String, first_participant_sends_welcome identity = true ↔
      ¬(startswith identity "agent-" = true)) ∧
    on_participant_connected_schedules "agent-42" = false ∧
    first_participant_sends_welcome "agent-42" = false ∧
    on_participant_connected_schedules "transcript-listener" = false ∧
    on_participant_connected_schedules "user-1" = true ∧
    first_participant_sends_welcome "user-1" = true := by
  refine ⟨fun identity => ?_, fun identity => ?_, rfl, rfl, rfl, rfl, rfl⟩
  · simp [on_participant_connected_schedules, not_or]
  · simp [first_participant_sends_welcome]

/-- C7: the welcome-speech step returns normally for every outcome of
`session.say`, and a raised error is caught and logged, never
propagated. -/
theorem send_welcome_message_never_raises :
    (∀ say : Except String Unit, ∃ logs, send_welcome_message say = Except.ok logs) ∧
    (∀ e : String, send_welcome_message (Except.error e) =
      Except.ok [LogEntry.info "Sending welcome message",
                 LogEntry.error ("Error sending welcome message: " ++ e)]) := by
  refine ⟨fun say => ?_, fun e => rfl⟩
  cases say with
  | error e => exact ⟨_, rfl⟩
  | ok u => exact ⟨_, rfl⟩

/-- C8: for every environment, speaker/text pair and outcome of the HTTP
request, the relay issues exactly one POST to
`\x7bFASTHTML_APP_URL\x7d/api/transcript` (default base
`"http://localhost:5001"`) carrying the speaker and text body fields and
a 10-unit timeout, and returns normally in all cases. -/
theorem send_transcript_never_raises (fasthtml_app_url : Option String)
    (speaker text : String) (post : PostRequest → Except String HttpResponse) :
    ∃ logs, send_transcript_to_app fasthtml_app_url speaker text post =
      Except.ok ([⟨(fasthtml_app_url.getD "http://localhost:5001") ++ "/api/transcript",
        speaker, text, 10⟩], logs) := by
  unfold send_transcript_to_app
  rcases post ⟨transcriptUrl fasthtml_app_url, speaker, text, 10⟩ with e | resp <;>
    exact ⟨_, rfl⟩

/-- C9: `validate_envs` warns exactly once for each required variable
whose value is unset or empty (empty treated as absence) and zero times
otherwise; being a total function into a log list, it always returns
normally. -/
theorem validate_envs_warns (env : String → Option String) (key descr : String)
    (hmem : (key, descr) ∈ required_envs) :
    (validate_envs env).count (envMissingWarning key descr) =
      if pyFalsyEnv (env key) then 1 else 0 := by
  cases h1 : pyFalsyEnv (env "LIVEKIT_URL") <;>
  cases h2 : pyFalsyEnv (env "LIVEKIT_API_KEY") <;>
  cases h3 : pyFalsyEnv (env "LIVEKIT_API_SECRET") <;>
  cases h4 : pyFalsyEnv (env "DEEPGRAM_API_KEY") <;>
  cases h5 : pyFalsyEnv (env "ELEVEN_API_KEY") <;>
    simp [required_envs, List.mem_cons] at hmem <;>
    rcases hmem with ⟨rfl, rfl⟩ | ⟨rfl, rfl⟩ | ⟨rfl, rfl⟩ | ⟨rfl, rfl⟩ | ⟨rfl, rfl⟩ <;>
    simp [validate_envs, required_envs, h1, h2, h3, h4, h5, envMissingWarning]

/-- C9 witness: with every variable unset, `LIVEKIT_URL` is warned about
exactly once. -/
theorem validate_envs_warns_witness :
    ("LIVEKIT_URL", "LiveKit server URL") ∈ required_envs ∧
    (validate_envs (fun _ => none)).count
      (envMissingWarning "LIVEKIT_URL" "LiveKit server URL") = 1 := by
  refine ⟨by decide, ?_⟩
  have h := validate_envs_warns (fun _ => none) "LIVEKIT_URL" "LiveKit server URL" (by decide)
  simpa using h

/-- C10: an override with an explicit `"http://"` scheme is not
rewritten; the resolver prepends `"https://"` to the whole string,
yielding a base of the form `"https://http://<rest>"`. -/
theorem resolveBase_http_insecure (addr : String) (h : startswith addr "http://" = true) :
    resolveBase (some addr) = "https://" ++ addr := by
  have hne : addr ≠ "" := by
    intro he
    rw [he] at h
    exact absurd h (by decide)
  have h2 := startswith_http_not_https addr h
  simp [resolveBase, hne, h2]

/-- C10 witness: `"http://engine.local"` resolves to
`"https://http://engine.local"`. -/
theorem resolveBase_http_insecure_witness :
    startswith "http://engine.local" "http://" = true ∧
    resolveBase (some "http://engine.local") = "https://http://engine.local" :=
  ⟨rfl, (resolveBase_http_insecure "http://engine.local" rfl).trans rfl⟩
